import Mathlib

/-!
Verification development for the SureSQL node (medatechnology/suresql).

The Go sources are shallowly embedded below: pure helpers become Lean
functions, the handler bodies become explicit state-passing functions
over a node-state record, and the external TTL-map collaborator
(goutil/medattlmap, whose source is not in this repository) is modelled
from the specification of section 4.1.  Machine integers: the Go
counters are uint64 incremented monotonically; every fact proved here
involves only small values far below 2^64, so they are modelled as
`Nat` (wrap-around is immaterial to every statement).  Opaque random
tokens and driver handles are modelled as a fresh-value supply drawn
from a strictly increasing counter.
-/

set_option linter.unusedVariables false

namespace SureSQL

/-! ## simpleorm condition values (models orm.Condition, used by handler_insert.go)

The Go struct has fields Field, Operator, Value (an interface value,
modelled as a String whose zero value is the empty string), Nested,
OrderBy, GroupBy, Limit, Offset.  It is recursive through Nested, hence
an inductive with projection functions. -/
inductive Condition where
  | mk (field : String) (op : String) (value : String)
       (nested : List Condition) (orderBy : List String) (groupBy : List String)
       (lim : Int) (off : Int)

def Condition.field : Condition → String
  | .mk f _ _ _ _ _ _ _ => f

def Condition.op : Condition → String
  | .mk _ o _ _ _ _ _ _ => o

def Condition.value : Condition → String
  | .mk _ _ v _ _ _ _ _ => v

def Condition.nested : Condition → List Condition
  | .mk _ _ _ n _ _ _ _ => n

def Condition.orderBy : Condition → List String
  | .mk _ _ _ _ ob _ _ _ => ob

def Condition.groupBy : Condition → List String
  | .mk _ _ _ _ _ gb _ _ => gb

def Condition.lim : Condition → Int
  | .mk _ _ _ _ _ _ l _ => l

def Condition.off : Condition → Int
  | .mk _ _ _ _ _ _ _ o => o

/-- Embeds isEmptyCondition (server/handler_insert.go): checks Field,
Nested, OrderBy, GroupBy, Limit and Offset; it does NOT look at the
Operator or Value fields. -/
def isEmptyCondition (c : Condition) : Bool :=
  c.field == "" && c.nested.isEmpty &&
  c.orderBy.isEmpty && c.groupBy.isEmpty &&
  c.lim == 0 && c.off == 0

/-! ## Validator (validation.go) -/
def MaxUsernameLength : Nat := 50

def MaxTableNameLength : Nat := 64

/-- UTF-8 byte size of one character, as Go len() counts it. -/
def charUtf8Size (c : Char) : Nat :=
  if c.toNat < 0x80 then 1
  else if c.toNat < 0x800 then 2
  else if c.toNat < 0x10000 then 3
  else 4

/-- Go len() of a string: the number of UTF-8 bytes. -/
def strByteLen (s : String) : Nat :=
  (s.data.map charUtf8Size).sum

/-- Go strings.HasPrefix(name, "_"): the first character is an underscore. -/
def startsWithUnderscore (s : String) : Bool :=
  match s.data with
  | [] => false
  | c :: _ => c == '_'

/-- Character class of the Go regex fragment [a-zA-Z]. -/
def isAsciiLetter (c : Char) : Bool :=
  (65 ≤ c.toNat && c.toNat ≤ 90) || (97 ≤ c.toNat && c.toNat ≤ 122)

/-- Character class of the Go regex fragment [0-9]. -/
def isAsciiDigit (c : Char) : Bool :=
  48 ≤ c.toNat && c.toNat ≤ 57

/-- Character class of the Go regex fragment [a-zA-Z_] (first table-name rune). -/
def isTableHeadChar (c : Char) : Bool := isAsciiLetter c || c == '_'

/-- Character class of the Go regex fragment [a-zA-Z0-9_] (later table-name runes). -/
def isTableTailChar (c : Char) : Bool := isAsciiLetter c || isAsciiDigit c || c == '_'

/-- Embeds the anchored Go regex match for table names:
one head character followed by tail characters only. -/
def tableNameRegexMatch (s : String) : Bool :=
  match s.data with
  | [] => false
  | c :: cs => isTableHeadChar c && cs.all isTableTailChar

/-- Character class of the Go regex [a-zA-Z0-9_.-] for usernames. -/
def isUsernameChar (c : Char) : Bool :=
  isAsciiLetter c || isAsciiDigit c || c == '_' || c == '.' || c == '-'

/-- Embeds ValidateTableName (validation.go): some message on failure,
none on success (Go returns error or nil). -/
def ValidateTableName (name : String) (allowInternal : Bool) : Option String :=
  if name = "" then some "table name cannot be empty"
  else if strByteLen name > MaxTableNameLength then
    some "table name exceeds maximum length"
  else if tableNameRegexMatch name = false then
    some "invalid table name format"
  else if allowInternal = false ∧ startsWithUnderscore name = true then
    some "access to internal tables is not allowed"
  else none

/-- Embeds ValidateUsername (validation.go). -/
def ValidateUsername (username : String) : Option String :=
  if username = "" then some "username cannot be empty"
  else if strByteLen username > MaxUsernameLength then
    some "username must not exceed maximum length"
  else if username.data.all isUsernameChar = false then
    some "username contains invalid characters"
  else none

/-! ## Query dispatcher (server/handler_insert.go, HandleQuery) -/
structure QueryRequest where
  table : String
  condition : Option Condition
  singleRow : Bool

/-- Driver operations the query dispatcher can invoke. -/
inductive DriverOp where
  | SelectOne
  | SelectMany
  | SelectOneWithCondition
  | SelectManyWithCondition
deriving DecidableEq

/-- Outcome of the dispatch portion of HandleQuery: either a rejection
with an HTTP status, or a single selected driver operation. -/
inductive QueryDispatch where
  | rejected (status : Nat)
  | dispatch (op : DriverOp)
deriving DecidableEq

/-- Embeds the request-classification part of HandleQuery
(server/handler_insert.go): empty table and table-validation failures
are rejected with HTTP 400 before any driver call, then the if/else
ladder on SingleRow and hasCondition picks one driver operation. -/
def HandleQuery (req : QueryRequest) : QueryDispatch :=
  if req.table = "" then .rejected 400
  else
    match ValidateTableName req.table false with
    | some _ => .rejected 400
    | none =>
      let hasCondition :=
        match req.condition with
        | none => false
        | some c => !(isEmptyCondition c)
      if req.singleRow then
        if hasCondition then .dispatch .SelectOneWithCondition
        else .dispatch .SelectOne
      else
        if hasCondition then .dispatch .SelectManyWithCondition
        else .dispatch .SelectMany

/-- Transcribed from the specification, section 4.9: the routing table
for QueryRequest, indexed by (singleRow, hasFilter). -/
def routingTable : Bool → Bool → DriverOp
  | true, true => .SelectOneWithCondition
  | true, false => .SelectOne
  | false, true => .SelectManyWithCondition
  | false, false => .SelectMany

/-- The dispatcher's own filter classification: a condition is present
and not classified empty by isEmptyCondition. -/
def hasFilter (req : QueryRequest) : Bool :=
  match req.condition with
  | none => false
  | some c => !(isEmptyCondition c)

/-- Transcribed from the specification, section 4.2: a filter is empty
when all of its fields are zero-valued. -/
def conditionAllZero (c : Condition) : Prop :=
  c.field = "" ∧ c.op = "" ∧ c.value = "" ∧ c.nested.length = 0 ∧
  c.orderBy = [] ∧ c.groupBy = [] ∧ c.lim = 0 ∧ c.off = 0

instance (c : Condition) : Decidable (conditionAllZero c) := by
  unfold conditionAllZero; infer_instance

/-! ## Metrics (src/unnamed/part_002, NodeMetrics) -/
structure NodeMetrics where
  connectionsCreated : Nat := 0
  connectionsClosed : Nat := 0
  poolExhaustionCount : Nat := 0
  tokensCreated : Nat := 0
  tokensExpired : Nat := 0
  refreshTokensUsed : Nat := 0
  totalRequests : Nat := 0
  failedRequests : Nat := 0
  authenticationAttempts : Nat := 0
  authenticationFailures : Nat := 0
  queriesExecuted : Nat := 0
  queriesSuccess : Nat := 0
  queriesFailed : Nat := 0
deriving DecidableEq

def NodeMetrics.zero : NodeMetrics := {}

/-- Embeds NodeMetrics.RecordAuthentication: always bumps the attempts
counter, bumps the failures counter when success is false. -/
def RecordAuthentication (m : NodeMetrics) (success : Bool) : NodeMetrics :=
  let m1 := { m with authenticationAttempts := m.authenticationAttempts + 1 }
  if success then m1
  else { m1 with authenticationFailures := m1.authenticationFailures + 1 }

/-- Embeds NodeMetrics.RecordConnectionCreated. -/
def RecordConnectionCreated (m : NodeMetrics) : NodeMetrics :=
  { m with connectionsCreated := m.connectionsCreated + 1 }

/-- Embeds NodeMetrics.RecordConnectionClosed. -/
def RecordConnectionClosed (m : NodeMetrics) : NodeMetrics :=
  { m with connectionsClosed := m.connectionsClosed + 1 }

/-- Embeds NodeMetrics.RecordPoolExhaustion (the counter part; the
last-exhaustion wall-clock timestamp is kept by the alert-engine model). -/
def RecordPoolExhaustion (m : NodeMetrics) : NodeMetrics :=
  { m with poolExhaustionCount := m.poolExhaustionCount + 1 }

/-- Embeds NodeMetrics.RecordTokenCreated. -/
def RecordTokenCreated (m : NodeMetrics) : NodeMetrics :=
  { m with tokensCreated := m.tokensCreated + 1 }

/-- Embeds NodeMetrics.RecordRefreshTokenUsed. -/
def RecordRefreshTokenUsed (m : NodeMetrics) : NodeMetrics :=
  { m with refreshTokensUsed := m.refreshTokensUsed + 1 }

/-- Embeds GetHealthStatus (src/unnamed/part_002): the status string is
assigned sequentially — pool usage at or above 90 percent sets degraded,
then an authentication failure rate above 50 percent with at least one
attempt sets degraded, then a query failure rate above 10 percent with
at least one query sets unhealthy, then a disconnected internal driver
sets unhealthy.  The Go float comparisons failures/attempts*100 > 50 and
failed/executed*100 > 10 are rendered as the exact integer inequalities
2*failures > attempts and 10*failed > executed; at these magnitudes the
float computation agrees with exact arithmetic.  `active` and `maxPool`
are the snapshot gauges; usage percent is 0 when maxPool is 0. -/
def GetHealthStatus (m : NodeMetrics) (active maxPool : Nat)
    (isConnected : Bool) : String :=
  let s1 := if 0 < maxPool ∧ 100 * active ≥ 90 * maxPool then "degraded" else "healthy"
  let s2 :=
    if 0 < m.authenticationAttempts ∧
       2 * m.authenticationFailures > m.authenticationAttempts then "degraded" else s1
  let s3 :=
    if 0 < m.queriesExecuted ∧
       10 * m.queriesFailed > m.queriesExecuted then "unhealthy" else s2
  if isConnected then s3 else "unhealthy"

/-! ## TTL map

Modelled from the spec: the TTL map collaborator (goutil/medattlmap,
whose source lies outside this repository; section 4.1 of the
specification defines it).  put(k, ttlOverride, v) with ttlOverride = 0
uses the map default TTL; get never returns an entry past its expiry;
delete removes the key; len counts stored entries.  Keys are the opaque
tokens, modelled as naturals; time is an explicit parameter. -/
structure TTLMap (α : Type) where
  defaultTTL : Nat
  entries : List (Nat × Nat × α)
deriving DecidableEq

/-- Insert or overwrite the entry for key k with expiry now + ttl
(the map default when ttl is 0). -/
def TTLMap.put {α : Type} (m : TTLMap α) (k ttl now : Nat) (v : α) : TTLMap α :=
  let t := if ttl = 0 then m.defaultTTL else ttl
  { m with entries := (k, now + t, v) :: m.entries.filter (fun e => !(e.1 == k)) }

/-- Look the key up; an entry past its expiry is never returned. -/
def TTLMap.get {α : Type} (m : TTLMap α) (k now : Nat) : Option α :=
  match m.entries.find? (fun e => e.1 == k) with
  | some e => if now < e.2.1 then some e.2.2 else none
  | none => none

/-- Remove the entry for key k. -/
def TTLMap.delete {α : Type} (m : TTLMap α) (k : Nat) : TTLMap α :=
  { m with entries := m.entries.filter (fun e => !(e.1 == k)) }

/-- Number of stored entries. -/
def TTLMap.len {α : Type} (m : TTLMap α) : Nat :=
  m.entries.length

/-! ## Token records, node state and the session protocol
(models.go, db_node.go, src/unnamed/part_001, server/internal.go) -/
/-- Default TTL constants of models.go, in minutes. -/
def DEFAULT_TOKEN_EXPIRES_MINUTES : Nat := 24 * 60

def DEFAULT_REFRESH_EXPIRES_MINUTES : Nat := 48 * 60

/-- Models TokenTable (models.go).  The opaque random token strings are
modelled as naturals drawn from the node's fresh-value counter. -/
structure TokenTable where
  userID : String
  userName : String
  token : Nat
  refresh : Nat
  tokenExpiresAt : Nat
  refreshExpiresAt : Nat
deriving DecidableEq

/-- Models the combined global mutable state: the CurrentNode singleton
(db_node.go) together with the TokenStore global (src/unnamed/part_001)
and the Metrics global (src/unnamed/part_002).  `users` are the rows of
the _users table as (username, password hash, id).  `counter` is the
fresh-value supply standing in for random token generation and driver
construction; `closedDrivers` records every driver handle whose Close
has been invoked. -/
structure SureSQLNode where
  users : List (String × String × String)
  apiKey : String
  clientID : String
  tokenMap : TTLMap TokenTable
  refreshTokenMap : TTLMap TokenTable
  dbConnections : TTLMap Nat
  isPoolEnabled : Bool
  maxPool : Nat
  counter : Nat
  closedDrivers : List Nat
  metrics : NodeMetrics
deriving DecidableEq

/-- Driver handle of the process-wide internal connection. -/
def internalDriverID : Nat := 0

/-- Stub of the external hashing collaborator goutil/encryption.HashPin
(outside this repository); the claims depend only on it being a
deterministic function of the pin and the pepper. -/
def HashPin (pin apiKey clientID : String) : String :=
  apiKey ++ ":" ++ clientID ++ ":" ++ pin

/-- Embeds SureSQLNode.IsPoolAvailable (db_node.go): pool enabled and
current size strictly below MaxPool. -/
def IsPoolAvailable (n : SureSQLNode) : Bool :=
  n.isPoolEnabled && decide (n.dbConnections.len < n.maxPool)

inductive DBErr where
  | noDBConnection
deriving DecidableEq

/-- Embeds SureSQLNode.GetDBConnectionByToken (db_node.go): with the
pool enabled the driver comes from the pool keyed by the access token
(absence is ErrNoDBConnection); with the pool disabled the internal
connection is returned unconditionally. -/
def GetDBConnectionByToken (n : SureSQLNode) (token now : Nat) : Except DBErr Nat :=
  if n.isPoolEnabled = true then
    match n.dbConnections.get token now with
    | some db => .ok db
    | none => .error .noDBConnection
  else .ok internalDriverID

/-- Embeds TokenStoreStruct.TokenExist (src/unnamed/part_001): a lookup
in the access-token TTL map. -/
def TokenExist (n : SureSQLNode) (tok now : Nat) : Option TokenTable :=
  n.tokenMap.get tok now

/-- Embeds TokenStoreStruct.RefreshTokenExist: a lookup in the
refresh-token TTL map. -/
def RefreshTokenExist (n : SureSQLNode) (tok now : Nat) : Option TokenTable :=
  n.refreshTokenMap.get tok now

/-- Embeds TokenStoreStruct.SaveToken: the record is stored under its
access key and its refresh key, each with the default TTL of its map. -/
def SaveToken (n : SureSQLNode) (t : TokenTable) (now : Nat) : SureSQLNode :=
  { n with tokenMap := n.tokenMap.put t.token 0 now t,
           refreshTokenMap := n.refreshTokenMap.put t.refresh 0 now t }

/-- Embeds createNewTokenResponse (src/unnamed/part_001): mints a fresh
token pair, sets the record expiries to now plus the DEFAULT constants
of models.go (not the configured TTLs), saves the record into both TTL
maps, and records a token-created metric. -/
def createNewTokenResponse (n : SureSQLNode) (userName userID : String)
    (now : Nat) : SureSQLNode × TokenTable :=
  let tok : TokenTable :=
    { userID := userID, userName := userName,
      token := n.counter, refresh := n.counter + 1,
      tokenExpiresAt := now + DEFAULT_TOKEN_EXPIRES_MINUTES,
      refreshExpiresAt := now + DEFAULT_REFRESH_EXPIRES_MINUTES }
  let n1 := SaveToken { n with counter := n.counter + 2 } tok now
  ({ n1 with metrics := RecordTokenCreated n1.metrics }, tok)

inductive ConnectResult where
  | badRequest
  | unauthorized
  | notAcceptable
  | ok (tok : TokenTable)
deriving DecidableEq

/-- HTTP status carried by each HandleConnect outcome. -/
def ConnectResult.statusCode : ConnectResult → Nat
  | .badRequest => 400
  | .unauthorized => 401
  | .notAcceptable => 406
  | .ok _ => 200

/-- Embeds HandleConnect (server/internal.go).  The invalid-username,
unknown-user and wrong-password paths return without touching the
metrics (the source calls RecordAuthentication only on the
driver-failure, pool-exhaustion and success paths).  Driver construction
(NewDatabase) is modelled as always succeeding with a fresh handle; the
token response is minted and saved before the pool-admission check, and
on admission failure the fresh driver is not closed. -/
def HandleConnect (n : SureSQLNode) (username password : String) (now : Nat) :
    SureSQLNode × ConnectResult :=
  match ValidateUsername username with
  | some _ => (n, .badRequest)
  | none =>
    match n.users.find? (fun u => u.1 == username) with
    | none => (n, .unauthorized)
    | some u =>
      if u.2.1 == HashPin password n.apiKey n.clientID then
        let newDB := n.counter
        let n1 := { n with counter := n.counter + 1 }
        let res := createNewTokenResponse n1 username u.2.2 now
        let n2 := res.1
        let tok := res.2
        if IsPoolAvailable n2 then
          (({ n2 with
              dbConnections := n2.dbConnections.put tok.token 0 now newDB,
              metrics := RecordAuthentication (RecordConnectionCreated n2.metrics) true }),
           .ok tok)
        else
          (({ n2 with
              metrics := RecordAuthentication (RecordPoolExhaustion n2.metrics) false }),
           .notAcceptable)
      else (n, .unauthorized)

inductive RefreshResult where
  | badRequest
  | unauthorized
  | serviceUnavailable
  | ok (tok : TokenTable)
deriving DecidableEq

/-- HTTP status carried by each HandleRefresh outcome. -/
def RefreshResult.statusCode : RefreshResult → Nat
  | .badRequest => 400
  | .unauthorized => 401
  | .serviceUnavailable => 503
  | .ok _ => 200

def RefreshResult.isOk : RefreshResult → Bool
  | .ok _ => true
  | _ => false

/-- Embeds HandleRefresh (server/internal.go): the refresh token is
validated against the refresh-token map only; the old driver is closed
best-effort when the pool lookup finds it; the old pool entry is
deleted; a fresh driver is opened (modelled as always succeeding); a new
token pair is minted and saved; on pool admission the new driver is
admitted under the new access key and the old refresh record is deleted;
on admission failure the handler exits with 503 after recording a
pool-exhaustion metric, without closing the fresh driver and without
deleting the old refresh record. -/
def HandleRefresh (n : SureSQLNode) (refreshTok now : Nat) :
    SureSQLNode × RefreshResult :=
  match RefreshTokenExist n refreshTok now with
  | none => (n, .unauthorized)
  | some tokmap =>
    let n1 :=
      match GetDBConnectionByToken n tokmap.token now with
      | .ok oldDB =>
        { n with closedDrivers := oldDB :: n.closedDrivers,
                 metrics := RecordConnectionClosed n.metrics }
      | .error _ => n
    let n2 := { n1 with dbConnections := n1.dbConnections.delete tokmap.token }
    let newDB := n2.counter
    let n3 := { n2 with counter := n2.counter + 1 }
    let res := createNewTokenResponse n3 tokmap.userName tokmap.userID now
    let n4 := res.1
    let tok := res.2
    if IsPoolAvailable n4 then
      let n5 := { n4 with
        dbConnections := n4.dbConnections.put tok.token 0 now newDB,
        metrics := RecordRefreshTokenUsed (RecordConnectionCreated n4.metrics) }
      ({ n5 with refreshTokenMap := n5.refreshTokenMap.delete refreshTok }, .ok tok)
    else
      ({ n4 with metrics := RecordPoolExhaustion n4.metrics }, .serviceUnavailable)

/-- The token record minted by a successful refresh of session t on
state n: bookkeeping abbreviation for the proofs below. -/
def mintedToken (n : SureSQLNode) (t : TokenTable) (now : Nat) : TokenTable :=
  { userID := t.userID, userName := t.userName,
    token := n.counter + 1, refresh := n.counter + 2,
    tokenExpiresAt := now + DEFAULT_TOKEN_EXPIRES_MINUTES,
    refreshExpiresAt := now + DEFAULT_REFRESH_EXPIRES_MINUTES }

/-- The node state after a successful refresh whose old-driver lookup
returned oldDB: bookkeeping abbreviation for the proofs below. -/
def refreshSuccessState (n : SureSQLNode) (t : TokenTable) (now oldDB : Nat) :
    SureSQLNode :=
  { n with
    closedDrivers := oldDB :: n.closedDrivers,
    counter := n.counter + 3,
    tokenMap := n.tokenMap.put (n.counter + 1) 0 now (mintedToken n t now),
    refreshTokenMap :=
      (n.refreshTokenMap.put (n.counter + 2) 0 now (mintedToken n t now)).delete
        t.refresh,
    dbConnections :=
      (n.dbConnections.delete t.token).put (n.counter + 1) 0 now n.counter,
    metrics :=
      RecordRefreshTokenUsed (RecordConnectionCreated
        (RecordTokenCreated (RecordConnectionClosed n.metrics))) }

/-- The token record minted by HandleConnect for user row u: bookkeeping
abbreviation for the proofs below. -/
def connectMintedToken (n : SureSQLNode) (username : String)
    (u : String × String × String) (now : Nat) : TokenTable :=
  { userID := u.2.2, userName := username,
    token := n.counter + 1, refresh := n.counter + 2,
    tokenExpiresAt := now + DEFAULT_TOKEN_EXPIRES_MINUTES,
    refreshExpiresAt := now + DEFAULT_REFRESH_EXPIRES_MINUTES }

/-- A live session used by the concrete witnesses: user alice holds the
token record with access key 10 and refresh key 11, its driver (handle
1) is pooled, and the fresh-value counter is past all existing keys. -/
def witTok : TokenTable :=
  { userID := "1", userName := "alice", token := 10, refresh := 11,
    tokenExpiresAt := 1540, refreshExpiresAt := 2980 }

def witNode : SureSQLNode :=
  { users := [("alice", HashPin "pw" "k1" "c1", "1")],
    apiKey := "k1", clientID := "c1",
    tokenMap := { defaultTTL := 1440, entries := [(10, 1540, witTok)] },
    refreshTokenMap := { defaultTTL := 2880, entries := [(11, 2980, witTok)] },
    dbConnections := { defaultTTL := 2880, entries := [(10, 2980, 1)] },
    isPoolEnabled := true, maxPool := 2, counter := 20,
    closedDrivers := [], metrics := NodeMetrics.zero }

/-- A node whose pool is full (one entry, maxPool 1) and that knows user
alice; authentication succeeds but pool admission must fail. -/
def fullPoolNode : SureSQLNode :=
  { users := [("alice", HashPin "pw" "k1" "c1", "1")],
    apiKey := "k1", clientID := "c1",
    tokenMap := { defaultTTL := 1440, entries := [] },
    refreshTokenMap := { defaultTTL := 2880, entries := [] },
    dbConnections := { defaultTTL := 2880, entries := [(5, 3000, 1)] },
    isPoolEnabled := true, maxPool := 1, counter := 20,
    closedDrivers := [], metrics := NodeMetrics.zero }

/-- A node on which a refresh arrives for the live refresh key 11 while
the old access key 10 has no pool entry and the pool is full with a
foreign entry: admission must fail even after the no-op delete. -/
def fullPoolRefreshNode : SureSQLNode :=
  { users := [], apiKey := "k1", clientID := "c1",
    tokenMap := { defaultTTL := 1440, entries := [] },
    refreshTokenMap := { defaultTTL := 2880, entries := [(11, 2980, witTok)] },
    dbConnections := { defaultTTL := 2880, entries := [(7, 3000, 2)] },
    isPoolEnabled := true, maxPool := 1, counter := 20,
    closedDrivers := [], metrics := NodeMetrics.zero }

/-- A node configured with a 10-minute access TTL and 20-minute refresh
TTL in its token-store maps, differing from the built-in defaults. -/
def shortTTLNode : SureSQLNode :=
  { users := [], apiKey := "k", clientID := "c",
    tokenMap := { defaultTTL := 10, entries := [] },
    refreshTokenMap := { defaultTTL := 20, entries := [] },
    dbConnections := { defaultTTL := 20, entries := [] },
    isPoolEnabled := true, maxPool := 25, counter := 0,
    closedDrivers := [], metrics := NodeMetrics.zero }

/-- A node that knows user alice with password "correcthorse", fresh
pool and token store. -/
def wrongPasswordNode : SureSQLNode :=
  { users := [("alice", HashPin "correcthorse" "k1" "c1", "1")],
    apiKey := "k1", clientID := "c1",
    tokenMap := { defaultTTL := 1440, entries := [] },
    refreshTokenMap := { defaultTTL := 2880, entries := [] },
    dbConnections := { defaultTTL := 2880, entries := [] },
    isPoolEnabled := true, maxPool := 25, counter := 1,
    closedDrivers := [], metrics := NodeMetrics.zero }

/-- The node state after k consecutive wrong-password connect attempts
for user alice. -/
def connectAttemptsState : Nat → SureSQLNode
  | 0 => wrongPasswordNode
  | k + 1 => (HandleConnect (connectAttemptsState k) "alice" "wrongpw" 100).1

/-! ## Alert engine (src/MONITORING_FEATURES.md embedded source:
AlertManager, checkSystemHealth and the three rule checks).  The
evaluation loop wakes every 30 s and calls checkSystemHealth; here each
evaluation is a function of the manager state, a metrics view and the
current time in seconds.  The alert message strings carry formatted
percentages and are not claim-relevant; alerts are modelled as
(level, title, timestamp). -/
structure Alert where
  level : String
  title : String
  timestamp : Nat
deriving DecidableEq

structure AlertManager where
  alerts : List Alert
  maxAlerts : Nat
  poolWarningThreshold : Nat
  poolCriticalThreshold : Nat
  lastPoolWarning : Nat
  lastPoolCritical : Nat
  alertCooldown : Nat
deriving DecidableEq

/-- Embeds NewAlertManager: last-100 ring, 75/90 percent thresholds,
5-minute (300 s) cooldown, zero-time cooldown stamps. -/
def NewAlertManager : AlertManager :=
  { alerts := [], maxAlerts := 100, poolWarningThreshold := 75,
    poolCriticalThreshold := 90, lastPoolWarning := 0, lastPoolCritical := 0,
    alertCooldown := 300 }

/-- Embeds AlertManager.CreateAlert: append and keep only the last
maxAlerts entries. -/
def CreateAlert (am : AlertManager) (level title : String) (now : Nat) :
    AlertManager :=
  let alerts := am.alerts ++ [{ level := level, title := title, timestamp := now }]
  { am with alerts :=
      if am.maxAlerts < alerts.length then alerts.drop (alerts.length - am.maxAlerts)
      else alerts }

/-- The global metric gauges and counters the rule checks read. -/
structure MetricsView where
  active : Nat
  maxPool : Nat
  poolExhaustionCount : Nat
  lastPoolExhaustion : Nat
  authenticationAttempts : Nat
  authenticationFailures : Nat
  queriesExecuted : Nat
  queriesFailed : Nat
deriving DecidableEq

/-- Embeds AlertManager.checkConnectionPool: early return when the pool
is absent or unbounded; the critical band (usage at or above the
critical threshold) and the warning band each guard their alert behind
the 5-minute cooldown stamp of that band; then the exhaustion rule fires
an alert on every evaluation while the exhaustion count is positive and
the last exhaustion lies within the hard-coded 5 minutes — with no
cooldown of its own.  The float comparison usagePct ≥ threshold is
rendered exactly as 100 * active ≥ maxPool * threshold. -/
def checkConnectionPool (am : AlertManager) (s : MetricsView) (now : Nat) :
    AlertManager :=
  if s.maxPool = 0 then am
  else
    let am1 :=
      if 100 * s.active ≥ s.maxPool * am.poolCriticalThreshold then
        if am.alertCooldown < now - am.lastPoolCritical then
          { (CreateAlert am "CRITICAL" "Connection Pool Critical" now) with
              lastPoolCritical := now }
        else am
      else if 100 * s.active ≥ s.maxPool * am.poolWarningThreshold then
        if am.alertCooldown < now - am.lastPoolWarning then
          { (CreateAlert am "WARNING" "Connection Pool High Usage" now) with
              lastPoolWarning := now }
        else am
      else am
    if 0 < s.poolExhaustionCount ∧ now - s.lastPoolExhaustion < 300 then
      CreateAlert am1 "CRITICAL" "Connection Pool Exhaustion" now
    else am1

/-- Embeds AlertManager.checkAuthenticationFailures: below ten attempts
nothing fires; otherwise a failure rate above 50 percent (rendered
exactly as attempts < 2 * failures) fires the warning on every
evaluation — there is no cooldown in this rule. -/
def checkAuthenticationFailures (am : AlertManager) (s : MetricsView)
    (now : Nat) : AlertManager :=
  if s.authenticationAttempts < 10 then am
  else if s.authenticationAttempts < 2 * s.authenticationFailures then
    CreateAlert am "WARNING" "High Authentication Failure Rate" now
  else am

/-- Embeds AlertManager.checkQueryFailures: below ten queries nothing
fires; a rate above 25 percent (executed < 4 * failed) fires the
critical alert, else a rate above 10 percent (executed < 10 * failed)
fires the warning — again with no cooldown. -/
def checkQueryFailures (am : AlertManager) (s : MetricsView) (now : Nat) :
    AlertManager :=
  if s.queriesExecuted < 10 then am
  else if s.queriesExecuted < 4 * s.queriesFailed then
    CreateAlert am "CRITICAL" "High Query Failure Rate" now
  else if s.queriesExecuted < 10 * s.queriesFailed then
    CreateAlert am "WARNING" "Elevated Query Failure Rate" now
  else am

/-- Embeds AlertManager.checkSystemHealth: the three checks in source
order. -/
def checkSystemHealth (am : AlertManager) (s : MetricsView) (now : Nat) :
    AlertManager :=
  checkQueryFailures (checkAuthenticationFailures (checkConnectionPool am s now) s now) s now

/-- The metrics view of an authentication flood: ten attempts, all
failed, pool rules and query rules idle. -/
def authFloodView : MetricsView :=
  { active := 0, maxPool := 0, poolExhaustionCount := 0, lastPoolExhaustion := 0,
    authenticationAttempts := 10, authenticationFailures := 10,
    queriesExecuted := 0, queriesFailed := 0 }

/-- The metrics view of a pool at 90 percent (critical band). -/
def critPoolView : MetricsView :=
  { active := 9, maxPool := 10, poolExhaustionCount := 0, lastPoolExhaustion := 0,
    authenticationAttempts := 0, authenticationFailures := 0,
    queriesExecuted := 0, queriesFailed := 0 }

/-- The metrics view of a pool at 80 percent (warning band only). -/
def warnPoolView : MetricsView :=
  { active := 8, maxPool := 10, poolExhaustionCount := 0, lastPoolExhaustion := 0,
    authenticationAttempts := 0, authenticationFailures := 0,
    queriesExecuted := 0, queriesFailed := 0 }

/-! ## Insert handler (server/handler_insert.go, HandleInsert) -/
/-- Models orm.DBRecord: a table name and the field names of its data
map (field values are not claim-relevant). -/
structure DBRecord where
  tableName : String
  dataKeys : List String
deriving DecidableEq

/-- Models orm.BasicSQLResult: the per-statement effect tally. -/
structure BasicSQLResult where
  rowsAffected : Int
  lastInsertID : Int
  errMsg : Option String
deriving DecidableEq

structure InsertRequest where
  records : List DBRecord
  queue : Bool
  sameTable : Bool

/-- The three insert operations of the driver contract, abstracted as
functions so the theorem quantifies over every driver behaviour. -/
structure InsertDriver where
  insertOneDBRecord : DBRecord → Bool → BasicSQLResult
  insertManyDBRecordsSameTable :
    List DBRecord → Bool → Except String (List BasicSQLResult)
  insertManyDBRecords :
    List DBRecord → Bool → Except String (List BasicSQLResult)

/-- Models suresql.SQLResponse (results plus rows_affected; the
execution-time field is wall-clock and not modelled). -/
structure SQLResponse where
  results : List BasicSQLResult
  rowsAffected : Nat
deriving DecidableEq

/-- Embeds HandleInsert (server/handler_insert.go): no records is a 400;
one record calls InsertOneDBRecord and reports rows_affected = numRecs
(= 1); several records with same_table call InsertManyDBRecordsSameTable
and report rows_affected = numRecs; several heterogeneous records call
InsertManyDBRecords and report rows_affected = the number of returned
tallies.  Driver errors are 500. -/
instance {ε α : Type} [DecidableEq ε] [DecidableEq α] : DecidableEq (Except ε α)
  | .error a, .error b =>
    if h : a = b then .isTrue (by rw [h])
    else .isFalse (fun hc => by injection hc; exact h (by assumption))
  | .error _, .ok _ => .isFalse (fun hc => Except.noConfusion hc)
  | .ok _, .error _ => .isFalse (fun hc => Except.noConfusion hc)
  | .ok a, .ok b =>
    if h : a = b then .isTrue (by rw [h])
    else .isFalse (fun hc => by injection hc; exact h (by assumption))

def HandleInsert (db : InsertDriver) (req : InsertRequest) :
    Except (Nat × String) SQLResponse :=
  match req.records with
  | [] => .error (400, "No records provided")
  | [r] =>
    let result := db.insertOneDBRecord r req.queue
    match result.errMsg with
    | some _ => .error (500, "Failed to insert record")
    | none => .ok { results := [result], rowsAffected := 1 }
  | r1 :: r2 :: rest =>
    let rs := r1 :: r2 :: rest
    if req.sameTable then
      match db.insertManyDBRecordsSameTable rs req.queue with
      | .error _ => .error (500, "Failed to insert multiple records of same table")
      | .ok results => .ok { results := results, rowsAffected := rs.length }
    else
      match db.insertManyDBRecords rs req.queue with
      | .error _ => .error (500, "Failed to insert multiple records")
      | .ok results => .ok { results := results, rowsAffected := results.length }

def r5tally : BasicSQLResult := { rowsAffected := 5, lastInsertID := 1, errMsg := none }

def r7tally : BasicSQLResult := { rowsAffected := 7, lastInsertID := 2, errMsg := none }

/-- A driver whose heterogeneous insert reports tallies of 5 and 7
affected rows. -/
def c10driver : InsertDriver :=
  { insertOneDBRecord := fun _ _ => r5tally,
    insertManyDBRecordsSameTable := fun rs _ => .ok (rs.map (fun _ => r5tally)),
    insertManyDBRecords := fun _ _ => .ok [r5tally, r7tally] }

/-- The heterogeneous two-record insert request of seed scenario S3. -/
def c10req : InsertRequest :=
  { records := [{ tableName := "t1", dataKeys := ["id"] },
                { tableName := "t2", dataKeys := ["id"] }],
    queue := false, sameTable := false }

def c10resp : SQLResponse := { results := [r5tally, r7tally], rowsAffected := 2 }

/-! ## Theorems -/

/-- C1: for every QueryRequest whose table name passes validation with
internal access disallowed, the dispatcher selects exactly one driver
operation and it is the one given by the routing table of section 4.9
applied to (singleRow, hasFilter); and every request whose table name
starts with an underscore is rejected (HTTP 400) before any driver
operation is selected.  Condition emptiness here is the dispatcher's own
classification (isEmptyCondition); its relation to the specification's
notion of emptiness is settled separately. -/
theorem C1_dispatch_routing (req : QueryRequest)
    (hvalid : ValidateTableName req.table false = none) :
    HandleQuery req = .dispatch (routingTable req.singleRow (hasFilter req)) ∧
    ∀ req2 : QueryRequest, startsWithUnderscore req2.table = true →
      HandleQuery req2 = .rejected 400 := by
  constructor
  · have hne : ¬ req.table = "" := by
      intro h
      simp [ValidateTableName, h] at hvalid
    unfold HandleQuery
    rw [if_neg hne, hvalid]
    cases hsr : req.singleRow <;> cases hc : req.condition <;>
      simp [routingTable, hasFilter, hsr, hc] <;>
      cases isEmptyCondition _ <;> simp [routingTable]
  · intro req2 hpre
    unfold HandleQuery
    by_cases hemp : req2.table = ""
    · rw [if_pos hemp]
    · rw [if_neg hemp]
      obtain ⟨e, he⟩ : ∃ e, ValidateTableName req2.table false = some e := by
        unfold ValidateTableName
        rw [if_neg hemp]
        by_cases hlen : strByteLen req2.table > MaxTableNameLength
        · rw [if_pos hlen]; exact ⟨_, rfl⟩
        · rw [if_neg hlen]
          by_cases hre : tableNameRegexMatch req2.table = false
          · rw [if_pos hre]; exact ⟨_, rfl⟩
          · rw [if_neg hre, if_pos ⟨rfl, hpre⟩]; exact ⟨_, rfl⟩
      rw [he]

/-- C1 witness: the theorem applied at a concrete valid request (table
"orders", a real filter, singleRow true), plus the underscore conjunct
instantiated at the internal table "_users". -/
theorem C1_dispatch_routing_witness :
    HandleQuery
      { table := "orders",
        condition := some (.mk "id" "=" "42" [] [] [] 0 0),
        singleRow := true } = .dispatch .SelectOneWithCondition ∧
    HandleQuery { table := "_users", condition := none, singleRow := false } =
      .rejected 400 := by
  have h := C1_dispatch_routing
    { table := "orders",
      condition := some (.mk "id" "=" "42" [] [] [] 0 0),
      singleRow := true } (by decide)
  exact ⟨h.1, h.2 { table := "_users", condition := none, singleRow := false }
    (by decide)⟩

/-- C6 counterexample: the condition whose only non-zero fields are the
operator and the value is classified empty by the code (and therefore
dispatched as if no filter were given), refuting the claim that
emptiness holds exactly when all fields are zero-valued. -/
theorem C6_counterexample :
    isEmptyCondition (.mk "" "=" "42" [] [] [] 0 0) = true ∧
    ¬ conditionAllZero (.mk "" "=" "42" [] [] [] 0 0) ∧
    HandleQuery
      { table := "orders",
        condition := some (.mk "" "=" "42" [] [] [] 0 0),
        singleRow := true } = .dispatch .SelectOne := by
  refine ⟨by decide, by decide, by decide⟩

/-- C6 amended: a QueryRequest condition is classified empty (and hence
dispatched as if no filter were given) exactly when its field is the
empty string, its nested, orderBy and groupBy lists are empty and its
limit and offset are zero; the operator and value fields are ignored, so
a condition whose only non-zero fields are operator and value is treated
as no filter. -/
theorem C6_amended_empty_classification (c : Condition) :
    isEmptyCondition c = true ↔
      (c.field = "" ∧ c.nested = [] ∧ c.orderBy = [] ∧ c.groupBy = [] ∧
       c.lim = 0 ∧ c.off = 0) := by
  unfold isEmptyCondition
  simp [List.isEmpty_iff, and_assoc]

/-- C7 counterexample: a single failed authentication attempt (1 of 1,
far below ten) already reports degraded, and a single failed query (1 of
1) already reports unhealthy, refuting the claim that the failure-rate
rules apply only from ten samples onward. -/
theorem C7_counterexample :
    GetHealthStatus { NodeMetrics.zero with
        authenticationAttempts := 1, authenticationFailures := 1 } 0 0 true
      = "degraded" ∧
    GetHealthStatus { NodeMetrics.zero with
        queriesExecuted := 1, queriesFailed := 1 } 0 0 true
      = "unhealthy" ∧ (1 : Nat) < 10 := by
  refine ⟨by decide, by decide, by decide⟩

/-- C7 amended: GetHealthStatus applies the failure-rate rules from the
first sample on, with no ten-sample minimum: with the internal driver
connected and the query-failure rule not triggered, an authentication
failure rate above 50 percent with at least one attempt reports
degraded, and a query failure rate above 10 percent with at least one
query reports unhealthy regardless of the other rules.  The ten-sample
minimum exists only in the alert engine, not in health scoring. -/
theorem C7_amended_health_rates (m : NodeMetrics) (active maxPool : Nat)
    (hconn : True) :
    ((0 < m.authenticationAttempts ∧
        2 * m.authenticationFailures > m.authenticationAttempts) →
      ¬ (0 < m.queriesExecuted ∧ 10 * m.queriesFailed > m.queriesExecuted) →
      GetHealthStatus m active maxPool true = "degraded") ∧
    ((0 < m.queriesExecuted ∧ 10 * m.queriesFailed > m.queriesExecuted) →
      GetHealthStatus m active maxPool true = "unhealthy") := by
  constructor
  · intro hauth hq
    simp only [GetHealthStatus, if_pos rfl, if_neg hq, if_pos hauth, if_true]
  · intro hq
    simp only [GetHealthStatus, if_pos rfl, if_pos hq, if_true]

/-- C7 amended witness: the amended theorem applied at one failed
attempt out of one, and at one failed query out of one. -/
theorem C7_amended_health_rates_witness :
    GetHealthStatus { NodeMetrics.zero with
        authenticationAttempts := 1, authenticationFailures := 1 } 3 7 true
      = "degraded" ∧
    GetHealthStatus { NodeMetrics.zero with
        queriesExecuted := 1, queriesFailed := 1 } 3 7 true
      = "unhealthy" := by
  have h1 := C7_amended_health_rates { NodeMetrics.zero with
    authenticationAttempts := 1, authenticationFailures := 1 } 3 7 trivial
  have h2 := C7_amended_health_rates { NodeMetrics.zero with
    queriesExecuted := 1, queriesFailed := 1 } 3 7 trivial
  exact ⟨h1.1 (by decide) (by decide), h2.2 (by decide)⟩

theorem find?_filter_ne {α : Type} (l : List (Nat × Nat × α)) (k j : Nat)
    (h : ¬ j = k) :
    (l.filter (fun e => !(e.1 == k))).find? (fun e => e.1 == j) =
      l.find? (fun e => e.1 == j) := by
  induction l with
  | nil => rfl
  | cons e t ih =>
    have hkj : (k == j) = false := by
      simp only [beq_eq_false_iff_ne, ne_eq]
      intro hkj; exact h hkj.symm
    by_cases hek : e.1 = k
    · have h2 : (e.1 == j) = false := by
        simp only [beq_eq_false_iff_ne, ne_eq, hek]
        intro hkj2; exact h hkj2.symm
      simp [List.filter_cons, List.find?_cons, hek, h2, hkj, ih]
    · by_cases hej : e.1 = j
      · simp [List.filter_cons, List.find?_cons, hek, hej, h, List.find?_cons]
      · simp [List.filter_cons, List.find?_cons, hek, hej, h, ih]

@[simp] theorem TTLMap.get_put_self {α : Type} (m : TTLMap α)
    (k ttl now q : Nat) (v : α) :
    (m.put k ttl now v).get k q =
      if q < now + (if ttl = 0 then m.defaultTTL else ttl) then some v
      else none := by
  simp [TTLMap.put, TTLMap.get, List.find?_cons]

theorem TTLMap.get_put_of_ne {α : Type} (m : TTLMap α)
    (k ttl now q j : Nat) (v : α) (h : ¬ j = k) :
    (m.put k ttl now v).get j q = m.get j q := by
  have hkj : (k == j) = false := by
    simp only [beq_eq_false_iff_ne, ne_eq]
    intro hkj; exact h hkj.symm
  simp [TTLMap.put, TTLMap.get, List.find?_cons, hkj, find?_filter_ne _ _ _ h]

@[simp] theorem TTLMap.get_delete_self {α : Type} (m : TTLMap α) (k q : Nat) :
    (m.delete k).get k q = none := by
  have : (m.entries.filter (fun e => !(e.1 == k))).find? (fun e => e.1 == k)
      = none := by
    rw [List.find?_eq_none]
    intro e he
    have := List.of_mem_filter he
    simpa using this
  simp [TTLMap.delete, TTLMap.get, this]

theorem TTLMap.get_delete_of_ne {α : Type} (m : TTLMap α) (k q j : Nat)
    (h : ¬ j = k) :
    (m.delete k).get j q = m.get j q := by
  simp [TTLMap.delete, TTLMap.get, find?_filter_ne _ _ _ h]

theorem TTLMap.len_delete_le {α : Type} (m : TTLMap α) (k : Nat) :
    (m.delete k).len ≤ m.len :=
  List.length_filter_le _ _

theorem TTLMap.len_delete_lt_of_get {α : Type} (m : TTLMap α) (k q : Nat)
    (h : m.get k q ≠ none) :
    (m.delete k).len < m.len := by
  unfold TTLMap.get at h
  rcases hf : m.entries.find? (fun e => e.1 == k) with _ | e
  · rw [hf] at h; exact absurd rfl h
  · have hmem : e ∈ m.entries := List.mem_of_find?_eq_some hf
    have hpe := List.find?_some hf
    have : (m.entries.filter (fun e => !(e.1 == k))).length < m.entries.length := by
      rw [List.length_filter_lt_length_iff_exists]
      exact ⟨e, hmem, by simp_all⟩
    exact this

@[simp] theorem TTLMap.defaultTTL_put {α : Type} (m : TTLMap α)
    (k ttl now : Nat) (v : α) :
    (m.put k ttl now v).defaultTTL = m.defaultTTL := rfl

@[simp] theorem TTLMap.defaultTTL_delete {α : Type} (m : TTLMap α) (k : Nat) :
    (m.delete k).defaultTTL = m.defaultTTL := rfl

/-- Reduction of HandleRefresh on the success path: pool enabled, the
refresh key live and bound to t, the old pool entry live, and room in
the pool after the old entry is deleted. -/
theorem HandleRefresh_success_eq (n : SureSQLNode) (t : TokenTable)
    (now oldDB : Nat)
    (hpe : n.isPoolEnabled = true)
    (hsome : RefreshTokenExist n t.refresh now = some t)
    (hg : n.dbConnections.get t.token now = some oldDB)
    (hlt : (n.dbConnections.delete t.token).len < n.maxPool) :
    HandleRefresh n t.refresh now =
      (refreshSuccessState n t now oldDB, .ok (mintedToken n t now)) := by
  unfold HandleRefresh
  rw [hsome]
  dsimp only
  have hgd : GetDBConnectionByToken n t.token now = .ok oldDB := by
    unfold GetDBConnectionByToken
    rw [if_pos hpe, hg]
  rw [hgd]
  simp only [createNewTokenResponse, SaveToken, IsPoolAvailable]
  rw [if_pos]
  · unfold refreshSuccessState mintedToken
    rfl
  · simp only [hpe, Bool.true_and, decide_eq_true_eq]
    exact hlt

/-- Reduction of HandleRefresh when the refresh key is not live. -/
theorem HandleRefresh_dead_eq (n : SureSQLNode) (refreshTok now : Nat)
    (hnone : RefreshTokenExist n refreshTok now = none) :
    HandleRefresh n refreshTok now = (n, .unauthorized) := by
  unfold HandleRefresh
  rw [hnone]

/-- Reduction of HandleConnect on the pool-exhaustion path: valid
username, user found, password matching, pool not available.  The fresh
driver (handle n.counter) is opened but never closed, the minted token
pair stays registered in both token maps, and only the exhaustion and
authentication metrics move. -/
theorem HandleConnect_exhaust_eq (n : SureSQLNode)
    (username password : String) (u : String × String × String) (now : Nat)
    (hv : ValidateUsername username = none)
    (hu : n.users.find? (fun w => w.1 == username) = some u)
    (hp : (u.2.1 == HashPin password n.apiKey n.clientID) = true)
    (hpool : ¬ IsPoolAvailable n = true) :
    HandleConnect n username password now =
      ({ n with
          counter := n.counter + 3,
          tokenMap := n.tokenMap.put (n.counter + 1) 0 now
            (connectMintedToken n username u now),
          refreshTokenMap := n.refreshTokenMap.put (n.counter + 2) 0 now
            (connectMintedToken n username u now),
          metrics := RecordAuthentication
            (RecordPoolExhaustion (RecordTokenCreated n.metrics)) false },
       .notAcceptable) := by
  unfold HandleConnect
  rw [hv]
  dsimp only
  rw [hu]
  dsimp only
  rw [if_pos hp]
  simp only [createNewTokenResponse, SaveToken]
  split
  · rename_i hav
    exact absurd hav hpool
  · unfold connectMintedToken
    rfl

/-- Reduction of HandleConnect on the success path: valid username, user
found, password matching, pool available.  Mirrors the source ordering:
token response minted and saved first, then the driver admitted to the
pool under the new access key, then the success metrics recorded. -/
theorem HandleConnect_success_eq (n : SureSQLNode)
    (username password : String) (u : String × String × String) (now : Nat)
    (hv : ValidateUsername username = none)
    (hu : n.users.find? (fun w => w.1 == username) = some u)
    (hp : (u.2.1 == HashPin password n.apiKey n.clientID) = true)
    (hpool : IsPoolAvailable n = true) :
    HandleConnect n username password now =
      ({ n with
          counter := n.counter + 3,
          tokenMap := n.tokenMap.put (n.counter + 1) 0 now
            (connectMintedToken n username u now),
          refreshTokenMap := n.refreshTokenMap.put (n.counter + 2) 0 now
            (connectMintedToken n username u now),
          dbConnections := n.dbConnections.put (n.counter + 1) 0 now n.counter,
          metrics := RecordAuthentication
            (RecordConnectionCreated (RecordTokenCreated n.metrics)) true },
       .ok (connectMintedToken n username u now)) := by
  unfold HandleConnect
  rw [hv]
  dsimp only
  rw [hu]
  dsimp only
  rw [if_pos hp]
  simp only [createNewTokenResponse, SaveToken]
  split
  · unfold connectMintedToken
    rfl
  · rename_i hav
    exact absurd hpool hav

/-- Reduction of HandleRefresh on the pool-exhaustion path in which the
old access key no longer has a pool entry: the refresh key is live, the
pool lookup fails (so nothing is closed), the old entry deletion is a
no-op, and after minting and saving the new token pair the admission
check fails, recording pool exhaustion and answering 503 with the old
refresh record still live and the fresh driver never closed. -/
theorem HandleRefresh_exhaust_eq (n : SureSQLNode) (t : TokenTable) (now : Nat)
    (hpe : n.isPoolEnabled = true)
    (hsome : RefreshTokenExist n t.refresh now = some t)
    (hgnone : n.dbConnections.get t.token now = none)
    (hfull : ¬ (n.dbConnections.delete t.token).len < n.maxPool) :
    HandleRefresh n t.refresh now =
      ({ n with
          dbConnections := n.dbConnections.delete t.token,
          counter := n.counter + 3,
          tokenMap := n.tokenMap.put (n.counter + 1) 0 now (mintedToken n t now),
          refreshTokenMap := n.refreshTokenMap.put (n.counter + 2) 0 now
            (mintedToken n t now),
          metrics := RecordPoolExhaustion (RecordTokenCreated n.metrics) },
       .serviceUnavailable) := by
  unfold HandleRefresh
  rw [hsome]
  dsimp only
  have hgd : GetDBConnectionByToken n t.token now = .error .noDBConnection := by
    unfold GetDBConnectionByToken
    rw [if_pos hpe, hgnone]
  rw [hgd]
  simp only [createNewTokenResponse, SaveToken]
  split
  · rename_i hav
    simp only [IsPoolAvailable, hpe, Bool.true_and, decide_eq_true_eq] at hav
    exact absurd hav hfull
  · unfold mintedToken
    rfl

/-- C2: for every session authenticated as token record t (the refresh
key, when live, is bound to t; the session's pool entry is live when its
refresh key is; the pool is enabled, within capacity and has a positive
TTL; t's keys come from earlier mints, hence lie below the fresh-value
counter), a refresh presented with t.refresh succeeds exactly when the
refresh key is live in the refresh-token map — the access-token map is
not consulted — and on success the new record t2 has a different access
key and a different refresh key, the pool entry under t.token is gone
and a pool entry under t2.token is present. -/
theorem C2_refresh_roundtrip (n : SureSQLNode) (t : TokenTable) (now : Nat)
    (hpe : n.isPoolEnabled = true)
    (httl : 0 < n.dbConnections.defaultTTL)
    (hlen : n.dbConnections.len ≤ n.maxPool)
    (hret : RefreshTokenExist n t.refresh now = none ∨
            RefreshTokenExist n t.refresh now = some t)
    (hmem : RefreshTokenExist n t.refresh now = some t →
            n.dbConnections.get t.token now ≠ none)
    (hta : t.token < n.counter) (htr : t.refresh < n.counter) :
    ((HandleRefresh n t.refresh now).2.isOk = true ↔
       RefreshTokenExist n t.refresh now ≠ none) ∧
    ∀ n2 t2, HandleRefresh n t.refresh now = (n2, .ok t2) →
      t2.token ≠ t.token ∧ t2.refresh ≠ t.refresh ∧
      n2.dbConnections.get t.token now = none ∧
      n2.dbConnections.get t2.token now ≠ none := by
  rcases hret with hnone | hsome
  · rw [HandleRefresh_dead_eq n t.refresh now hnone]
    constructor
    · constructor
      · intro h
        exact absurd h (by simp [RefreshResult.isOk])
      · intro h
        exact absurd hnone h
    · intro n2 t2 heq
      injection heq with h1 h2
      exact absurd h2 (by simp)
  · obtain ⟨oldDB, hg⟩ : ∃ d, n.dbConnections.get t.token now = some d := by
      rcases h : n.dbConnections.get t.token now with _ | d
      · exact absurd h (hmem hsome)
      · exact ⟨d, rfl⟩
    have hlt : (n.dbConnections.delete t.token).len < n.maxPool :=
      Nat.lt_of_lt_of_le
        (TTLMap.len_delete_lt_of_get _ _ now (by rw [hg]; exact fun h => Option.noConfusion h))
        hlen
    rw [HandleRefresh_success_eq n t now oldDB hpe hsome hg hlt]
    constructor
    · simp [RefreshResult.isOk, hsome]
    · intro n2 t2 heq
      injection heq with h1 h2
      injection h2 with h3
      subst h1
      subst h3
      refine ⟨?_, ?_, ?_, ?_⟩
      · show n.counter + 1 ≠ t.token
        omega
      · show n.counter + 2 ≠ t.refresh
        omega
      · show ((n.dbConnections.delete t.token).put (n.counter + 1) 0 now
            n.counter).get t.token now = none
        rw [TTLMap.get_put_of_ne _ _ _ _ _ _ _ (by omega)]
        exact TTLMap.get_delete_self _ _ _
      · show ((n.dbConnections.delete t.token).put (n.counter + 1) 0 now
            n.counter).get (n.counter + 1) now ≠ none
        rw [TTLMap.get_put_self]
        have hd : (if (0 : Nat) = 0 then (n.dbConnections.delete t.token).defaultTTL
            else 0) = n.dbConnections.defaultTTL := by
          rw [if_pos rfl]
          exact TTLMap.defaultTTL_delete _ _
        rw [hd, if_pos (by omega)]
        exact fun h => Option.noConfusion h

/-- A put with ttlOverride 0 into a map with positive default TTL is
immediately live. -/
theorem TTLMap.get_put_self_live {α : Type} (m : TTLMap α) (k now : Nat) (v : α)
    (h : 0 < m.defaultTTL) :
    (m.put k 0 now v).get k now = some v := by
  rw [TTLMap.get_put_self]
  have hd : (if (0 : Nat) = 0 then m.defaultTTL else 0) = m.defaultTTL := if_pos rfl
  rw [hd, if_pos (by omega)]

/-- C2 witness: the round-trip theorem applied at the concrete live
session of witNode: the refresh of key 11 succeeds, the old pool entry
(access key 10) is gone and the new access key 21 has a pool entry. -/
theorem C2_refresh_roundtrip_witness :
    (HandleRefresh witNode 11 100).2.isOk = true ∧
    (HandleRefresh witNode 11 100).1.dbConnections.get 10 100 = none ∧
    (HandleRefresh witNode 11 100).1.dbConnections.get 21 100 ≠ none := by
  have h := C2_refresh_roundtrip witNode witTok 100 rfl (by decide) (by decide)
    (Or.inr (by decide)) (fun _ => by decide) (by decide) (by decide)
  have h2 := h.2 (HandleRefresh witNode 11 100).1 (mintedToken witNode witTok 100)
    (by decide)
  exact ⟨h.1.mpr (by decide), h2.2.2.1, h2.2.2.2⟩

/-- C9: a successful refresh deletes the old pool entry and the old
refresh record but performs no operation at all on the access-token map
entry of the old access key: TokenExist answers for the old access key
exactly as before the refresh at every instant (so it stays true until
that entry's own TTL elapses), while a request presenting the old
access key fails with the no-connection error because its pool entry is
gone. -/
theorem C9_refresh_frame (n : SureSQLNode) (t : TokenTable) (now oldDB : Nat)
    (hpe : n.isPoolEnabled = true)
    (hsome : RefreshTokenExist n t.refresh now = some t)
    (hg : n.dbConnections.get t.token now = some oldDB)
    (hlt : (n.dbConnections.delete t.token).len < n.maxPool)
    (hta : t.token < n.counter) (htr : t.refresh < n.counter) :
    (∀ q, TokenExist (HandleRefresh n t.refresh now).1 t.token q
        = TokenExist n t.token q) ∧
    RefreshTokenExist (HandleRefresh n t.refresh now).1 t.refresh now = none ∧
    GetDBConnectionByToken (HandleRefresh n t.refresh now).1 t.token now
      = .error .noDBConnection := by
  rw [HandleRefresh_success_eq n t now oldDB hpe hsome hg hlt]
  refine ⟨?_, ?_, ?_⟩
  · intro q
    show (n.tokenMap.put (n.counter + 1) 0 now (mintedToken n t now)).get t.token q
        = n.tokenMap.get t.token q
    exact TTLMap.get_put_of_ne _ _ _ _ _ _ _ (by omega)
  · show ((n.refreshTokenMap.put (n.counter + 2) 0 now (mintedToken n t now)).delete
        t.refresh).get t.refresh now = none
    exact TTLMap.get_delete_self _ _ _
  · show GetDBConnectionByToken (refreshSuccessState n t now oldDB) t.token now
        = .error .noDBConnection
    unfold GetDBConnectionByToken
    rw [if_pos (show (refreshSuccessState n t now oldDB).isPoolEnabled = true from hpe)]
    have hnone : (refreshSuccessState n t now oldDB).dbConnections.get t.token now
        = none := by
      show ((n.dbConnections.delete t.token).put (n.counter + 1) 0 now
          n.counter).get t.token now = none
      rw [TTLMap.get_put_of_ne _ _ _ _ _ _ _ (by omega)]
      exact TTLMap.get_delete_self _ _ _
    rw [hnone]

/-- C9 witness: the frame theorem applied at the concrete live session
of witNode: after refreshing key 11, TokenExist still answers the old
record for access key 10, the refresh record for key 11 is gone, and a
request on access key 10 gets the no-connection error. -/
theorem C9_refresh_frame_witness :
    TokenExist (HandleRefresh witNode 11 100).1 10 100 = some witTok ∧
    RefreshTokenExist (HandleRefresh witNode 11 100).1 11 100 = none ∧
    GetDBConnectionByToken (HandleRefresh witNode 11 100).1 10 100
      = .error .noDBConnection := by
  have h := C9_refresh_frame witNode witTok 100 1 rfl (by decide) (by decide)
    (by decide) (by decide) (by decide)
  exact ⟨(h.1 100).trans (by decide), h.2.1, h.2.2⟩

/-- C4 counterexample: on the pool-exhaustion connect path the node does
answer 406 and bump the exhaustion counter, but the freshly opened
driver (handle 20) is never closed (closedDrivers stays empty) and the
freshly minted token record is left registered under access key 21 in
the token store — refuting the claim that the driver is closed and no
other session state is left behind. -/
theorem C4_counterexample :
    (HandleConnect fullPoolNode "alice" "pw" 100).2.statusCode = 406 ∧
    (HandleConnect fullPoolNode "alice" "pw" 100).1.metrics.poolExhaustionCount
      = 1 ∧
    (HandleConnect fullPoolNode "alice" "pw" 100).1.closedDrivers = [] ∧
    TokenExist (HandleConnect fullPoolNode "alice" "pw" 100).1 21 100 ≠ none := by
  refine ⟨by decide, by decide, by decide, by decide⟩

/-- C4 amended: when pool admission fails, the node increments the
pool-exhaustion counter and fails with the quota error (HTTP 406 on
connect, HTTP 503 on refresh), but it does not close the freshly opened
driver and it leaves the freshly minted token pair registered in the
token store; on the refresh path the old refresh record also survives. -/
theorem C4_amended_exhaustion (n : SureSQLNode) (username password : String)
    (u : String × String × String) (t : TokenTable) (now : Nat)
    (httl : 0 < n.tokenMap.defaultTTL) :
    ((ValidateUsername username = none) →
      (n.users.find? (fun w => w.1 == username) = some u) →
      ((u.2.1 == HashPin password n.apiKey n.clientID) = true) →
      (¬ IsPoolAvailable n = true) →
      (HandleConnect n username password now).2.statusCode = 406 ∧
      (HandleConnect n username password now).1.metrics.poolExhaustionCount
        = n.metrics.poolExhaustionCount + 1 ∧
      (HandleConnect n username password now).1.closedDrivers = n.closedDrivers ∧
      TokenExist (HandleConnect n username password now).1 (n.counter + 1) now
        ≠ none) ∧
    ((n.isPoolEnabled = true) →
      (RefreshTokenExist n t.refresh now = some t) →
      (n.dbConnections.get t.token now = none) →
      (¬ (n.dbConnections.delete t.token).len < n.maxPool) →
      (t.refresh < n.counter) →
      (HandleRefresh n t.refresh now).2.statusCode = 503 ∧
      (HandleRefresh n t.refresh now).1.metrics.poolExhaustionCount
        = n.metrics.poolExhaustionCount + 1 ∧
      RefreshTokenExist (HandleRefresh n t.refresh now).1 t.refresh now = some t ∧
      TokenExist (HandleRefresh n t.refresh now).1 (n.counter + 1) now ≠ none) := by
  constructor
  · intro hv hu hp hpool
    rw [HandleConnect_exhaust_eq n username password u now hv hu hp hpool]
    refine ⟨rfl, rfl, rfl, ?_⟩
    show (n.tokenMap.put (n.counter + 1) 0 now
        (connectMintedToken n username u now)).get (n.counter + 1) now ≠ none
    rw [TTLMap.get_put_self_live _ _ _ _ httl]
    exact fun h => Option.noConfusion h
  · intro hpe hsome hgnone hfull
    intro htr
    rw [HandleRefresh_exhaust_eq n t now hpe hsome hgnone hfull]
    refine ⟨rfl, rfl, ?_, ?_⟩
    · show (n.refreshTokenMap.put (n.counter + 2) 0 now (mintedToken n t now)).get
          t.refresh now = some t
      rw [TTLMap.get_put_of_ne _ _ _ _ _ _ _ (by omega)]
      exact hsome
    · show (n.tokenMap.put (n.counter + 1) 0 now (mintedToken n t now)).get
          (n.counter + 1) now ≠ none
      rw [TTLMap.get_put_self_live _ _ _ _ httl]
      exact fun h => Option.noConfusion h

/-- C4 amended witness: the amended theorem applied on the connect side
at fullPoolNode (yielding 406) and on the refresh side at
fullPoolRefreshNode (yielding 503 with the old refresh record and the
minted access record both still present). -/
theorem C4_amended_exhaustion_witness :
    (HandleConnect fullPoolNode "alice" "pw" 100).2.statusCode = 406 ∧
    (HandleRefresh fullPoolRefreshNode 11 100).2.statusCode = 503 ∧
    RefreshTokenExist (HandleRefresh fullPoolRefreshNode 11 100).1 11 100
      = some witTok ∧
    TokenExist (HandleRefresh fullPoolRefreshNode 11 100).1 21 100 ≠ none := by
  have h1 := (C4_amended_exhaustion fullPoolNode "alice" "pw"
    ("alice", HashPin "pw" "k1" "c1", "1") witTok 100 (by decide)).1
    (by decide) (by decide) (by decide) (by decide)
  have h2 := (C4_amended_exhaustion fullPoolRefreshNode "alice" "pw"
    ("alice", "h", "1") witTok 100 (by decide)).2
    rfl (by decide) (by decide) (by decide) (by decide)
  exact ⟨h1.1, h2.1, h2.2.2.1, h2.2.2.2⟩

/-- C5: the token record minted by createNewTokenResponse takes its
access and refresh expiries from the fixed DEFAULT constants of
models.go, not from the configured TTLs that govern the token-store
maps: whenever the configured access TTL differs from the default, the
record advertises now + 1440 minutes while the stored access entry has
already expired at now + configured-TTL.  The invariant
access-expiry ≤ refresh-expiry does hold.  The failing behaviour is the
first conjunct pair: the claim requires now + configured TTLs. -/
theorem C5_record_expiry (n : SureSQLNode) (userName userID : String) (now : Nat)
    (hcfg : n.tokenMap.defaultTTL ≠ DEFAULT_TOKEN_EXPIRES_MINUTES) :
    (createNewTokenResponse n userName userID now).2.tokenExpiresAt
        = now + DEFAULT_TOKEN_EXPIRES_MINUTES ∧
    (createNewTokenResponse n userName userID now).2.refreshExpiresAt
        = now + DEFAULT_REFRESH_EXPIRES_MINUTES ∧
    (createNewTokenResponse n userName userID now).2.tokenExpiresAt
        ≠ now + n.tokenMap.defaultTTL ∧
    TokenExist (createNewTokenResponse n userName userID now).1
        n.counter (now + n.tokenMap.defaultTTL) = none ∧
    (createNewTokenResponse n userName userID now).2.tokenExpiresAt
        ≤ (createNewTokenResponse n userName userID now).2.refreshExpiresAt := by
  refine ⟨rfl, rfl, ?_, ?_, ?_⟩
  · show now + DEFAULT_TOKEN_EXPIRES_MINUTES ≠ now + n.tokenMap.defaultTTL
    simp only [DEFAULT_TOKEN_EXPIRES_MINUTES] at hcfg ⊢
    omega
  · show (n.tokenMap.put n.counter 0 now _).get n.counter
        (now + n.tokenMap.defaultTTL) = none
    rw [TTLMap.get_put_self]
    have hd : (if (0 : Nat) = 0 then n.tokenMap.defaultTTL else 0)
        = n.tokenMap.defaultTTL := if_pos rfl
    rw [hd, if_neg (by omega)]
  · show now + DEFAULT_TOKEN_EXPIRES_MINUTES ≤ now + DEFAULT_REFRESH_EXPIRES_MINUTES
    simp only [DEFAULT_TOKEN_EXPIRES_MINUTES, DEFAULT_REFRESH_EXPIRES_MINUTES]
    omega

/-- C5 witness: with a configured 10-minute TTL, the minted record
advertises expiry at minute 1540 (now 100 + default 1440) while the
stored access entry is already dead at minute 110. -/
theorem C5_record_expiry_witness :
    (createNewTokenResponse shortTTLNode "alice" "1" 100).2.tokenExpiresAt
      = 1540 ∧
    TokenExist (createNewTokenResponse shortTTLNode "alice" "1" 100).1 0 110
      = none := by
  have h := C5_record_expiry shortTTLNode "alice" "1" 100 (by decide)
  exact ⟨h.1.trans (by decide), h.2.2.2.1⟩

/-- C3: the wrong-password and unknown-user paths of HandleConnect
return before RecordAuthentication is ever called, so ten consecutive
wrong-password connects leave authentication_attempts = 0 and
authentication_failures = 0 (the claim and the repository's own
monitoring documentation require 10 and 10); the wrong-password path
leaves the node state entirely unchanged, an unknown user is also
unrecorded, and only a successful authentication bumps the attempts
counter. -/
theorem C3_wrong_password_metrics :
    (HandleConnect wrongPasswordNode "alice" "wrongpw" 100).2 = .unauthorized ∧
    (HandleConnect wrongPasswordNode "alice" "wrongpw" 100).1
      = wrongPasswordNode ∧
    (HandleConnect wrongPasswordNode "bob" "whatever" 100).2 = .unauthorized ∧
    (HandleConnect wrongPasswordNode "bob" "whatever" 100).1
      = wrongPasswordNode ∧
    (connectAttemptsState 10).metrics.authenticationAttempts = 0 ∧
    (connectAttemptsState 10).metrics.authenticationFailures = 0 ∧
    (HandleConnect wrongPasswordNode "alice" "correcthorse" 100).1.metrics.authenticationAttempts = 1 := by
  refine ⟨by decide, by decide, by decide, by decide, by decide, by decide, by decide⟩

/-- Reduction of checkConnectionPool when the critical band holds but
its cooldown stamp blocks, and no exhaustion is pending: the evaluation
changes nothing. -/
theorem checkConnectionPool_blocked_critical (am : AlertManager)
    (s : MetricsView) (now2 : Nat)
    (hmp : ¬ s.maxPool = 0)
    (hcrit : 100 * s.active ≥ s.maxPool * am.poolCriticalThreshold)
    (hcool : ¬ am.alertCooldown < now2 - am.lastPoolCritical)
    (hexz : s.poolExhaustionCount = 0) :
    checkConnectionPool am s now2 = am := by
  unfold checkConnectionPool
  rw [if_neg hmp, if_pos hcrit, if_neg hcool, if_neg (by simp [hexz])]

/-- Reduction of checkConnectionPool when only the warning band holds
and its cooldown stamp blocks, with no exhaustion pending. -/
theorem checkConnectionPool_blocked_warning (am : AlertManager)
    (s : MetricsView) (now2 : Nat)
    (hmp : ¬ s.maxPool = 0)
    (hncrit : ¬ 100 * s.active ≥ s.maxPool * am.poolCriticalThreshold)
    (hwarn : 100 * s.active ≥ s.maxPool * am.poolWarningThreshold)
    (hcool : ¬ am.alertCooldown < now2 - am.lastPoolWarning)
    (hexz : s.poolExhaustionCount = 0) :
    checkConnectionPool am s now2 = am := by
  unfold checkConnectionPool
  rw [if_neg hmp, if_neg hncrit, if_pos hwarn, if_neg hcool,
    if_neg (by simp [hexz])]

/-- Reduction of checkConnectionPool when the critical band fires (its
cooldown has elapsed), with no exhaustion pending. -/
theorem checkConnectionPool_critical_fires (am : AlertManager)
    (s : MetricsView) (now : Nat)
    (hmp : ¬ s.maxPool = 0)
    (hcrit : 100 * s.active ≥ s.maxPool * am.poolCriticalThreshold)
    (hfire : am.alertCooldown < now - am.lastPoolCritical)
    (hexz : s.poolExhaustionCount = 0) :
    checkConnectionPool am s now =
      { (CreateAlert am "CRITICAL" "Connection Pool Critical" now) with
          lastPoolCritical := now } := by
  unfold checkConnectionPool
  rw [if_neg hmp, if_pos hcrit, if_pos hfire, if_neg (by simp [hexz])]

/-- Reduction of checkConnectionPool when only the warning band fires,
with no exhaustion pending. -/
theorem checkConnectionPool_warning_fires (am : AlertManager)
    (s : MetricsView) (now : Nat)
    (hmp : ¬ s.maxPool = 0)
    (hncrit : ¬ 100 * s.active ≥ s.maxPool * am.poolCriticalThreshold)
    (hwarn : 100 * s.active ≥ s.maxPool * am.poolWarningThreshold)
    (hfire : am.alertCooldown < now - am.lastPoolWarning)
    (hexz : s.poolExhaustionCount = 0) :
    checkConnectionPool am s now =
      { (CreateAlert am "WARNING" "Connection Pool High Usage" now) with
          lastPoolWarning := now } := by
  unfold checkConnectionPool
  rw [if_neg hmp, if_neg hncrit, if_pos hwarn, if_pos hfire,
    if_neg (by simp [hexz])]

/-- C8 counterexample: with a persisting authentication-failure
condition, two evaluation passes 30 seconds apart (both within the
5-minute cooldown window that the claim asserts for every rule) each
append a High Authentication Failure Rate alert: the rule fired twice
within its supposed cooldown. -/
theorem C8_counterexample :
    ((checkSystemHealth (checkSystemHealth NewAlertManager authFloodView 1000)
        authFloodView 1030).alerts.filter
      (fun a => a.title == "High Authentication Failure Rate")).length = 2 ∧
    (1030 : Nat) - 1000 < NewAlertManager.alertCooldown := by
  refine ⟨by decide, by decide⟩

/-- C8 amended: only the pool-usage warning and pool-usage critical
rules carry the 5-minute cooldown — after one of them fires, a second
evaluation within the cooldown window with the same band persisting
changes nothing; the authentication-failure rule (like the exhaustion
and query-failure rules, which share its structure) appends its alert on
every evaluation while its condition persists. -/
theorem C8_amended_cooldown (am : AlertManager) (s : MetricsView)
    (now now2 : Nat)
    (hexz : s.poolExhaustionCount = 0)
    (hwin : now2 - now ≤ am.alertCooldown) :
    ((¬ s.maxPool = 0) →
      (100 * s.active ≥ s.maxPool * am.poolCriticalThreshold) →
      (am.alertCooldown < now - am.lastPoolCritical) →
      checkConnectionPool (checkConnectionPool am s now) s now2
        = checkConnectionPool am s now) ∧
    ((¬ s.maxPool = 0) →
      (¬ 100 * s.active ≥ s.maxPool * am.poolCriticalThreshold) →
      (100 * s.active ≥ s.maxPool * am.poolWarningThreshold) →
      (am.alertCooldown < now - am.lastPoolWarning) →
      checkConnectionPool (checkConnectionPool am s now) s now2
        = checkConnectionPool am s now) ∧
    ((¬ s.authenticationAttempts < 10) →
      (s.authenticationAttempts < 2 * s.authenticationFailures) →
      (am.alerts.length < am.maxAlerts) →
      (checkAuthenticationFailures am s now).alerts
        = am.alerts ++
            [⟨"WARNING", "High Authentication Failure Rate", now⟩]) := by
  refine ⟨?_, ?_, ?_⟩
  · intro hmp hcrit hfire
    rw [checkConnectionPool_critical_fires am s now hmp hcrit hfire hexz]
    exact checkConnectionPool_blocked_critical _ s now2 hmp hcrit
      (show ¬ am.alertCooldown < now2 - now by omega) hexz
  · intro hmp hncrit hwarn hfire
    rw [checkConnectionPool_warning_fires am s now hmp hncrit hwarn hfire hexz]
    exact checkConnectionPool_blocked_warning _ s now2 hmp hncrit hwarn
      (show ¬ am.alertCooldown < now2 - now by omega) hexz
  · intro hmin hrate hroom
    unfold checkAuthenticationFailures
    rw [if_neg hmin, if_pos hrate]
    unfold CreateAlert
    dsimp only
    rw [if_neg (by
      simp only [List.length_append, List.length_cons, List.length_nil]
      omega)]

/-- C8 amended witness: the amended theorem applied at a critical-band
view, a warning-band view, and the authentication flood, with the first
evaluation at second 1000 and the second 30 seconds later. -/
theorem C8_amended_cooldown_witness :
    checkConnectionPool (checkConnectionPool NewAlertManager critPoolView 1000)
        critPoolView 1030
      = checkConnectionPool NewAlertManager critPoolView 1000 ∧
    checkConnectionPool (checkConnectionPool NewAlertManager warnPoolView 1000)
        warnPoolView 1030
      = checkConnectionPool NewAlertManager warnPoolView 1000 ∧
    (checkAuthenticationFailures NewAlertManager authFloodView 1000).alerts
      = [⟨"WARNING", "High Authentication Failure Rate", 1000⟩] := by
  have h1 := (C8_amended_cooldown NewAlertManager critPoolView 1000 1030
    rfl (by decide)).1 (by decide) (by decide) (by decide)
  have h2 := (C8_amended_cooldown NewAlertManager warnPoolView 1000 1030
    rfl (by decide)).2.1 (by decide) (by decide) (by decide) (by decide)
  have h3 := (C8_amended_cooldown NewAlertManager authFloodView 1000 1030
    rfl (by decide)).2.2 (by decide) (by decide) (by decide)
  exact ⟨h1, h2, h3.trans (by decide)⟩

/-- C10: every successful insert reports rows_affected equal to the
number of submitted records in the single-record and same-table cases
and to the number of driver result tallies in the heterogeneous case,
for every driver whatsoever — hence independent of the driver-reported
per-statement rows-affected values and never their sum. -/
theorem C10_insert_rows_affected (db : InsertDriver) (req : InsertRequest)
    (resp : SQLResponse)
    (hok : HandleInsert db req = .ok resp) :
    (req.records.length = 1 → resp.rowsAffected = 1) ∧
    (1 < req.records.length → req.sameTable = true →
      resp.rowsAffected = req.records.length) ∧
    (1 < req.records.length → req.sameTable = false →
      ∀ results, db.insertManyDBRecords req.records req.queue = .ok results →
        resp.rowsAffected = results.length) := by
  obtain ⟨records, queue, sameTable⟩ := req
  unfold HandleInsert at hok
  dsimp only at hok ⊢
  split at hok
  · exact absurd hok (by simp)
  · rename_i r
    split at hok
    · exact absurd hok (by simp)
    · injection hok with hok
      subst hok
      refine ⟨fun _ => rfl, ?_, ?_⟩
      · intro hlen
        simp at hlen
      · intro hlen
        simp at hlen
  · rename_i r1 r2 rest
    split at hok
    · rename_i hst
      split at hok
      · exact absurd hok (by simp)
      · rename_i results hres
        injection hok with hok
        subst hok
        refine ⟨?_, fun _ _ => rfl, ?_⟩
        · intro hlen
          simp at hlen
        · intro _ hfalse
          rw [hst] at hfalse
          exact absurd hfalse (by simp)
    · rename_i hst
      split at hok
      · exact absurd hok (by simp)
      · rename_i results hres
        injection hok with hok
        subst hok
        refine ⟨?_, ?_, ?_⟩
        · intro hlen
          simp at hlen
        · intro _ hfalse
          exact absurd hfalse hst
        · intro _ _ results2 hres2
          rw [hres] at hres2
          injection hres2 with hres2
          rw [hres2]

/-- C10 witness: the theorem applied at the concrete heterogeneous
request against a driver reporting 5 and 7 affected rows: rows_affected
is 2 (the number of tallies), not the sum 12. -/
theorem C10_insert_rows_affected_witness :
    c10resp.rowsAffected = 2 ∧ (5 : Int) + 7 = 12 ∧ c10resp.rowsAffected ≠ 12 := by
  have h := C10_insert_rows_affected c10driver c10req c10resp (by decide)
  have h3 := h.2.2 (by decide) rfl [r5tally, r7tally] (by decide)
  exact ⟨h3.trans (by decide), by decide, by decide⟩

end SureSQL

